import Mathlib

/-!
Shallow embedding of `src/inventory_server.py` (Inventory MCP server).

The tool layer of the server consists of three tools plus a CSV reader and
argparse defaults:
  * `read_csv_file(path)` — returns the parsed rows, or `[]` on any exception;
  * `get_all_products(limit=100, offset=0)` — Python slice
    `products[offset : offset + limit]` over the products table;
  * `get_sales_data()` — returns the sales table unchanged;
  * `get_season()` — classifies the current month into a season string and
    looks the season up in the hard-coded `SEASONAL_PRODUCTS` dict via
    `SEASONAL_PRODUCTS.get(s, SEASONAL_PRODUCTS[s])` (the default argument is
    evaluated eagerly, so a missing key raises `KeyError` which the
    surrounding `try` converts to `{"error": str(e)}`);
  * `argparse` configuration with `--host` (default "0.0.0.0") and
    `--port` (default 8080).

File I/O is modelled by passing the outcome of reading the file
(`Except String (List α)`: rows on success, an exception message on failure)
as an explicit argument; rows are kept abstract (`α`) since the tools never
inspect them.
-/

namespace InventoryServer

/-- Python slice index normalisation for a list of length `n`: a negative
index `i` counts from the end (`max (n + i) 0`), a non-negative one is
clamped to `n` (`min i n`). -/
def pySliceIndex (n : Nat) (i : Int) : Nat :=
  if i < 0 then ((n : Int) + i).toNat else min i.toNat n

/-- Python slice `xs[start : stop]` (step 1). -/
def pySlice (xs : List α) (start stop : Int) : List α :=
  (xs.take (pySliceIndex xs.length stop)).drop (pySliceIndex xs.length start)

/-- Model of `read_csv_file`: returns the rows read from the file, or `[]` when
opening/parsing raised (the `try/except` in the source). The argument is the
outcome of the underlying file read. -/
def read_csv_file (file : Except String (List α)) : List α :=
  match file with
  | Except.ok rows => rows
  | Except.error _ => []

/-- Core of `get_all_products`: the pagination applied to the row list,
`products[offset : offset + limit]`. -/
def get_all_products (rows : List α) (limit offset : Int) : List α :=
  pySlice rows offset (offset + limit)

/-- The `get_all_products` tool: reads the products file and paginates.
The Python defaults are `limit = 100`, `offset = 0`. -/
def get_all_products_tool (file : Except String (List α)) (limit offset : Int) : List α :=
  get_all_products (read_csv_file file) limit offset

/-- The `get_sales_data` tool: returns `read_csv_file(SALES_DATA_CSV)`
unchanged. -/
def get_sales_data (file : Except String (List α)) : List α :=
  read_csv_file file

/-- One entry of the `SEASONAL_PRODUCTS` dict in `get_season`. -/
structure SeasonData where
  high_priority : List String
  medium_priority : List String
  multiplier : Rat
deriving DecidableEq

/-- The `SEASONAL_PRODUCTS` dict literal from `get_season`, in source
order. -/
def SEASONAL_PRODUCTS : List (String × SeasonData) :=
  [ ("summer",
      ⟨["fan", "air conditioner", "ac", "cooler", "sunscreen", "hat", "cap"],
       ["shorts", "t-shirt", "sandals", "sunglasses", "water bottle"],
       2⟩),
    ("winter",
      ⟨["heater", "jacket", "coat", "blanket", "gloves", "scarf"],
       ["boots", "sweater", "warm clothes", "thermals"],
       9/5⟩),
    ("rainy",
      ⟨["umbrella", "raincoat", "rain boots", "waterproof"],
       ["towel", "dryer", "dehumidifier"],
       5/2⟩),
    ("spring",
      ⟨["allergy medicine", "light jacket", "gardening tools"],
       ["casual wear", "sneakers"],
       13/10⟩) ]

/-- Dictionary lookup `SEASONAL_PRODUCTS[s]` (`none` models `KeyError`). -/
def seasonalLookup (s : String) : Option SeasonData :=
  (SEASONAL_PRODUCTS.find? (fun p => p.1 == s)).map Prod.snd

/-- The `if current_month in [12,1,2] ... else "autumn"` chain of
`get_season`. -/
def month_to_season (m : Nat) : String :=
  if m = 12 ∨ m = 1 ∨ m = 2 then "winter"
  else if m = 3 ∨ m = 4 ∨ m = 5 then "summer"
  else if m = 6 ∨ m = 7 ∨ m = 8 then "rainy"
  else "autumn"

/-- The dictionary `get_season` returns: either the success dict with its six
keys, or the `{"error": str(e)}` dict from the `except` branch. -/
inductive SeasonResult where
  | ok (current_date current_season : String)
      (high_priority_products medium_priority_products : List String)
      (priority_multiplier : Rat) (recommendation : String)
  | error (msg : String)
deriving DecidableEq

/-- Model of `get_season`, as a function of the wall-clock date string and month
(`now.strftime("%d/%m/%Y")` and `now.month`). The Python
`SEASONAL_PRODUCTS.get(s, SEASONAL_PRODUCTS[s])` evaluates its default
argument eagerly, so a season absent from the dict raises
`KeyError(s)` — caught and returned as `{"error": str(e)}`, where
`str(KeyError(s))` is `s` wrapped in single quotes. -/
def get_season (date : String) (month : Nat) : SeasonResult :=
  let current_season := month_to_season month
  match seasonalLookup current_season with
  | none => SeasonResult.error ("\x27" ++ current_season ++ "\x27")
  | some priorities =>
      SeasonResult.ok date current_season
        priorities.high_priority priorities.medium_priority
        priorities.multiplier
        ("Current season is " ++ current_season ++ ". Focus on stocking " ++
          String.intercalate ", " (priorities.high_priority.take 3) ++
          " and related items.")

/-- Erase the `current_date` field of a `get_season` result, to compare two
invocations modulo the date. -/
def stripDate : SeasonResult → SeasonResult
  | SeasonResult.ok _ cs hp mp mult rec => SeasonResult.ok "" cs hp mp mult rec
  | SeasonResult.error e => SeasonResult.error e

/-- The argparse configuration of `__main__`. -/
structure ServerArgs where
  host : String
  port : Int
deriving DecidableEq

/-- The argparse defaults: `--host` default "0.0.0.0", `--port` default
8080. -/
def argDefaults : ServerArgs := { host := "0.0.0.0", port := 8080 }

/-- The argparse command line parse: `--host <v>` and `--port <int>` options,
anything else (or a malformed int) is an argparse error. -/
def parse_args : List String → ServerArgs → Option ServerArgs
  | [], acc => some acc
  | "--host" :: v :: rest, acc => parse_args rest { acc with host := v }
  | "--port" :: v :: rest, acc =>
      match v.toInt? with
      | some n => parse_args rest { acc with port := n }
      | none => none
  | _, _ => none

/-- The configuration `__main__` runs with, given the process argv. -/
def run_args (argv : List String) : Option ServerArgs :=
  parse_args argv argDefaults

/-- For non-negative `limit` and `offset` the Python slice
`rows[offset : offset + limit]` is drop-then-take. -/
theorem get_all_products_eq_drop_take (rows : List α) (limit offset : Int)
    (hl : 0 ≤ limit) (ho : 0 ≤ offset) :
    get_all_products rows limit offset =
      (rows.drop offset.toNat).take limit.toNat := by
  have hol : 0 ≤ offset + limit := by omega
  unfold get_all_products pySlice pySliceIndex
  rw [if_neg (by omega), if_neg (by omega), Int.toNat_add ho hl]
  set n := rows.length with hn
  set o := offset.toNat
  set l := limit.toNat
  have htake : rows.take (min (o + l) n) = rows.take (o + l) := by
    rcases le_total (o + l) n with h | h
    · rw [min_eq_left h]
    · rw [min_eq_right h, hn, List.take_length, List.take_of_length_le (hn ▸ h)]
  have hdrop : (rows.take (o + l)).drop (min o n) = (rows.take (o + l)).drop o := by
    rcases le_total o n with h | h
    · rw [min_eq_left h]
    · rw [min_eq_right h]
      have h1 : (rows.take (o + l)).length ≤ n := by
        simp [hn]
      rw [List.drop_eq_nil_of_le h1, List.drop_eq_nil_of_le (h1.trans h)]
  rw [htake, hdrop, List.drop_take, Nat.add_sub_cancel_left]

/-- Claim C3: for every row list and non-negative `limit` and `offset`,
`get_all_products` returns the contiguous slice starting at `offset` of
length at most `limit`; an `offset` at or beyond the row count yields the
empty list; on a 5-row table `(limit := 2, offset := 1)` gives the rows at
indices 1 and 2, and `(limit := 100, offset := 10)` gives the empty list. -/
theorem get_all_products_slice_spec (rows : List α) (limit offset : Int)
    (hl : 0 ≤ limit) (ho : 0 ≤ offset) :
    get_all_products rows limit offset =
        (rows.drop offset.toNat).take limit.toNat ∧
      (get_all_products rows limit offset).length ≤ limit.toNat ∧
      ((rows.length : Int) ≤ offset → get_all_products rows limit offset = []) ∧
      get_all_products ([0, 1, 2, 3, 4] : List Nat) 2 1 = [1, 2] ∧
      get_all_products ([0, 1, 2, 3, 4] : List Nat) 100 10 = [] := by
  have h := get_all_products_eq_drop_take rows limit offset hl ho
  refine ⟨h, ?_, ?_, by decide, by decide⟩
  · rw [h, List.length_take]
    exact Nat.min_le_left _ _
  · intro hbig
    have hlen : rows.length ≤ offset.toNat := by omega
    rw [h, List.drop_eq_nil_of_le hlen, List.take_nil]

/-- Witness for C3 at the 5-row table of the spec. -/
theorem get_all_products_slice_spec_witness :
    get_all_products ([0, 1, 2, 3, 4] : List Nat) 2 1 = [1, 2] :=
  (get_all_products_slice_spec ([0, 1, 2, 3, 4] : List Nat) 2 1
    (by decide) (by decide)).2.2.2.1

/-- Claim C4 counterexample: a negative `offset` is not replaced by the
default `offset = 0`; Python slicing makes `offset = -1` select from the end
of the list. -/
theorem negative_offset_not_defaulted :
    get_all_products ([0, 1, 2, 3, 4] : List Nat) 100 (-1) ≠
      get_all_products ([0, 1, 2, 3, 4] : List Nat) 100 0 := by decide

/-- Claim C4 (amended): absent arguments default to `limit = 100`,
`offset = 0`, but a negative `offset` follows Python slice semantics and
counts from the end of the row list: with `limit` large enough the result is
the suffix starting `|offset|` rows from the end. -/
theorem get_all_products_negative_offset_from_end (rows : List α)
    (limit offset : Int) (ho : offset < 0)
    (hno : 0 ≤ (rows.length : Int) + offset)
    (hl : (rows.length : Int) ≤ offset + limit) :
    get_all_products rows limit offset =
      rows.drop ((rows.length : Int) + offset).toNat := by
  unfold get_all_products pySlice pySliceIndex
  rw [if_pos ho, if_neg (by omega)]
  have hstop : min (offset + limit).toNat rows.length = rows.length := by omega
  rw [hstop, List.take_length]

/-- Witness for the amended C4: on a 5-row table, `offset = -2` with
`limit = 100` returns the last two rows. -/
theorem get_all_products_negative_offset_witness :
    get_all_products ([0, 1, 2, 3, 4] : List Nat) 100 (-2) =
      ([0, 1, 2, 3, 4] : List Nat).drop
        (((([0, 1, 2, 3, 4] : List Nat).length : Int) + (-2)).toNat) :=
  get_all_products_negative_offset_from_end ([0, 1, 2, 3, 4] : List Nat) 100 (-2)
    (by decide) (by decide) (by decide)

/-- Claim C9: pagination composes; for non-negative `o`, `l1`, `l2`, page
`(l1, o)` followed by page `(l2, o + l1)` is exactly page `(l1 + l2, o)`, so
successive pages tile the row list without gaps or overlaps. -/
theorem get_all_products_pages_tile (rows : List α) (o l1 l2 : Int)
    (ho : 0 ≤ o) (h1 : 0 ≤ l1) (h2 : 0 ≤ l2) :
    get_all_products rows l1 o ++ get_all_products rows l2 (o + l1) =
      get_all_products rows (l1 + l2) o := by
  rw [get_all_products_eq_drop_take rows l1 o h1 ho,
    get_all_products_eq_drop_take rows l2 (o + l1) h2 (by omega),
    get_all_products_eq_drop_take rows (l1 + l2) o (by omega) ho,
    Int.toNat_add ho h1, Int.toNat_add h1 h2, ← List.drop_drop, List.take_add]

/-- Witness for C9 on a concrete 5-row table. -/
theorem get_all_products_pages_tile_witness :
    get_all_products ([0, 1, 2, 3, 4] : List Nat) 2 1 ++
        get_all_products ([0, 1, 2, 3, 4] : List Nat) 2 (1 + 2) =
      get_all_products ([0, 1, 2, 3, 4] : List Nat) (2 + 2) 1 :=
  get_all_products_pages_tile ([0, 1, 2, 3, 4] : List Nat) 1 2 2
    (by decide) (by decide) (by decide)

/-- Claim C5: when reading the underlying data file fails, `get_all_products`
and `get_sales_data` both return the empty list (the `try/except` blocks turn
the failure into `[]` instead of propagating it). -/
theorem tools_empty_on_read_failure (α : Type) (e : String) (limit offset : Int) :
    get_all_products_tool (Except.error e : Except String (List α)) limit offset = [] ∧
      get_sales_data (Except.error e : Except String (List α)) = [] := by
  constructor
  · simp [get_all_products_tool, read_csv_file, get_all_products, pySlice]
  · rfl

/-- Claim C6: `get_sales_data` returns exactly what `read_csv_file` read from
the sales file, and on a successful read that is the full row list,
unmodified. -/
theorem get_sales_data_returns_rows_unmodified (α : Type)
    (file : Except String (List α)) :
    get_sales_data file = read_csv_file file ∧
      ∀ rows : List α, get_sales_data (Except.ok rows : Except String (List α)) = rows :=
  ⟨rfl, fun _ => rfl⟩

/-- Claim C1 counterexample: in September (month 9) the selected season is
"autumn", which has no entry in `SEASONAL_PRODUCTS`, so `get_season` returns
the error dict from the caught `KeyError` instead of priority lists. -/
theorem get_season_september_is_error :
    get_season "01/09/2025" 9 = SeasonResult.error "\x27autumn\x27" ∧
      seasonalLookup "autumn" = none :=
  ⟨rfl, rfl⟩

/-- Claim C1 (amended): for months 12, 1, 2 the season is "winter", for 3-5
"summer", for 6-8 "rainy", each returned with that entry of
`SEASONAL_PRODUCTS` (high and medium priority lists, multiplier) and a
recommendation built from the first three high-priority items; for months
9-11 the season is "autumn", absent from the table, and the result is the
error dict from the caught `KeyError`. -/
theorem get_season_by_month (d : String) (m : Nat) (h1 : 1 ≤ m) (h2 : m ≤ 12) :
    ((m = 12 ∨ m = 1 ∨ m = 2) →
      get_season d m = SeasonResult.ok d "winter"
        ["heater", "jacket", "coat", "blanket", "gloves", "scarf"]
        ["boots", "sweater", "warm clothes", "thermals"] (9/5)
        "Current season is winter. Focus on stocking heater, jacket, coat and related items.") ∧
      ((m = 3 ∨ m = 4 ∨ m = 5) →
        get_season d m = SeasonResult.ok d "summer"
          ["fan", "air conditioner", "ac", "cooler", "sunscreen", "hat", "cap"]
          ["shorts", "t-shirt", "sandals", "sunglasses", "water bottle"] 2
          "Current season is summer. Focus on stocking fan, air conditioner, ac and related items.") ∧
      ((m = 6 ∨ m = 7 ∨ m = 8) →
        get_season d m = SeasonResult.ok d "rainy"
          ["umbrella", "raincoat", "rain boots", "waterproof"]
          ["towel", "dryer", "dehumidifier"] (5/2)
          "Current season is rainy. Focus on stocking umbrella, raincoat, rain boots and related items.") ∧
      ((m = 9 ∨ m = 10 ∨ m = 11) →
        get_season d m = SeasonResult.error "\x27autumn\x27") := by
  interval_cases m <;>
    refine ⟨fun h => ?_, fun h => ?_, fun h => ?_, fun h => ?_⟩ <;>
      first
        | rfl
        | exact absurd h (by decide)

/-- Witness for the amended C1 in January. -/
theorem get_season_by_month_witness :
    get_season "15/01/2025" 1 = SeasonResult.ok "15/01/2025" "winter"
      ["heater", "jacket", "coat", "blanket", "gloves", "scarf"]
      ["boots", "sweater", "warm clothes", "thermals"] (9/5)
      "Current season is winter. Focus on stocking heater, jacket, coat and related items." :=
  (get_season_by_month "15/01/2025" 1 (by decide) (by decide)).1 (by decide)

/-- Claim C2 counterexample: the "autumn" branch is reachable; month 9 maps
to "autumn". -/
theorem month_nine_selects_autumn : month_to_season 9 = "autumn" := rfl

/-- Claim C2 (amended): the winter/summer/rainy ranges cover only months
12, 1-8; the "autumn" fallback is selected exactly for months 9-11, and the
"spring" entry of `SEASONAL_PRODUCTS` is never the selected season. -/
theorem autumn_reached_spring_never (m : Nat) (h1 : 1 ≤ m) (h2 : m ≤ 12) :
    (month_to_season m = "autumn" ↔ 9 ≤ m ∧ m ≤ 11) ∧
      month_to_season m ≠ "spring" := by
  interval_cases m <;> exact ⟨by decide, by decide⟩

/-- Witness for the amended C2 at month 9. -/
theorem autumn_reached_spring_never_witness :
    (month_to_season 9 = "autumn" ↔ 9 ≤ 9 ∧ 9 ≤ 11) ∧
      month_to_season 9 ≠ "spring" :=
  autumn_reached_spring_never 9 (by decide) (by decide)

/-- Claim C7: two `get_season` invocations in the same calendar month agree
on every field except `current_date`: the result is a deterministic function
of the month once the date field is erased. -/
theorem get_season_deterministic_within_month (d1 d2 : String) (m : Nat) :
    stripDate (get_season d1 m) = stripDate (get_season d2 m) := by
  cases hs : seasonalLookup (month_to_season m) <;>
    simp [get_season, stripDate, hs]

/-- Claim C8: for months 9, 10, 11 the selected season "autumn" is missing
from `SEASONAL_PRODUCTS`, the eagerly evaluated default of `dict.get` raises
`KeyError`, and `get_season` returns only the error dict, with no season,
priority, multiplier or recommendation fields. -/
theorem get_season_autumn_months_error (d : String) (m : Nat)
    (h : m = 9 ∨ m = 10 ∨ m = 11) :
    get_season d m = SeasonResult.error "\x27autumn\x27" := by
  rcases h with h | h | h <;> subst h <;> rfl

/-- Witness for C8 in October. -/
theorem get_season_autumn_months_error_witness :
    get_season "01/10/2025" 10 = SeasonResult.error "\x27autumn\x27" :=
  get_season_autumn_months_error "01/10/2025" 10 (Or.inr (Or.inl rfl))

/-- Claim C10: with no command-line arguments the server configuration is
the argparse defaults, host "0.0.0.0" and port 8080. -/
theorem run_args_defaults :
    run_args [] = some { host := "0.0.0.0", port := 8080 } := rfl

end InventoryServer
